import Mathlib

/-
Shallow embedding of the sliver secure-communication core:
  * sliver/transports/tcp-http.go — the implant-side HTTP(S) client
    (HTTPStartSession, SessionInit, getPublicKey, getSessionID, Get, Post,
    httpClient, httpsClient, toURL);
  * server/rpc/rpc-portfwd.go — the controller-side dispatch (rpcPortfwd).

External collaborators (the Go http stack, the protobuf codec, and the
crypto helpers that live elsewhere in the repository) are modelled as
oracle fields of an environment record; the byte type is `List Nat` and a
Go string stored in a byte field is its byte list, so the empty Go string
is `[]`.  Every operation returns, next to its result, the list of HTTP
requests it handed to the transport, so that "performs no network
activity" is the statement that this list is empty.
-/

set_option autoImplicit false

namespace Transports

/-- Raw bytes (Go `[]byte`). -/
abbrev Bytes := List Nat

/-- A symmetric session key (Go `AESKey`, a fixed 32-byte array; its length
plays no role in the claims, so it is abstracted to its byte list). -/
abbrev AESKey := List Nat

/-- HTTP method of a request built by the client. -/
inductive Method where
  | get
  | post
  deriving DecidableEq, Repr

/-- One HTTP request handed to the underlying `http.Client`. -/
structure HTTPRequest where
  method : Method
  url : String
  body : Bytes
  deriving DecidableEq, Repr

/-- An HTTP response as seen by the client: status code and raw body. -/
structure HTTPResponse where
  statusCode : Nat
  body : Bytes
  deriving DecidableEq, Repr

/-- An RSA public key (contents opaque to this layer). -/
structure RSAPublicKey where
  modulus : Nat
  exponent : Nat
  deriving DecidableEq, Repr

/-- The public key carried by a parsed certificate: either an RSA key or a
key of some other algorithm (the Go type assertion `.(*rsa.PublicKey)`
distinguishes exactly these two cases). -/
inductive CertPublicKey where
  | rsa (k : RSAPublicKey)
  | other
  deriving DecidableEq, Repr

/-- A parsed X.509 certificate, reduced to the field the code reads. -/
structure Certificate where
  publicKey : CertPublicKey
  deriving DecidableEq, Repr

/-- A decoded PEM block (`pem.Decode` result), reduced to its DER bytes. -/
structure PEMBlock where
  bytes : Bytes
  deriving DecidableEq, Repr

/-- Go struct `SliverHTTPClient`:  `Origin`, `SessionKey *AESKey`,
`SessionID string` (the embedded `http.Client` carries only timeouts,
which no claim observes, so it is not represented). -/
structure SliverHTTPClient where
  origin : String
  sessionKey : Option AESKey
  sessionID : Bytes
  deriving DecidableEq, Repr

/-- Environment of oracles for everything the client calls but that is not
defined in `tcp-http.go`: the Go HTTP stack and codec libraries, and the
crypto helpers of this repository that live outside the analysed sources.

Fields modelling repository code that is not among the sources:
* `gcmEncrypt`/`gcmDecrypt` — Modelled from the spec: `authenticatedEncrypt`
  / `authenticatedDecrypt` fail with a `CryptoError` on malformed input or
  authentication-tag mismatch and never return partial data.
* `rsaEncrypt` — Modelled from the spec: `asymmetricWrap` fails with a
  `CryptoError` on oversized plaintext or malformed key.
* `rootOnlyVerify` — Modelled from the spec: the pinned-certificate
  verifier checks exactly one leaf certificate against the embedded trust
  anchor and returns a nil error exactly on success.
* `randomKeys` — Modelled from the spec: `generateSymmetricKey` draws a
  cryptographically random fixed-length key per call; draws are modelled
  as a supply indexed by a counter that each generation advances. -/
structure Env where
  httpDo : HTTPRequest → Except String HTTPResponse
  pemDecode : Bytes → Option PEMBlock
  parseCertificate : Bytes → Option Certificate
  rootOnlyVerify : Bytes → Option String
  rsaEncrypt : Bytes → RSAPublicKey → Except String Bytes
  gcmEncrypt : AESKey → Bytes → Except String Bytes
  gcmDecrypt : AESKey → Bytes → Except String Bytes
  randomKeys : Nat → AESKey
  marshalSessionInit : AESKey → Bytes

/-- `toURL` — joins the origin and the path (`url.Parse` + `path.Join`;
the origins built below have an empty path component, for which the join
is plain concatenation). -/
def SliverHTTPClient.toURL (s : SliverHTTPClient) (urlPath : String) : String :=
  s.origin ++ urlPath

/-- `httpClient(address)` — a fresh client bound to the plaintext origin,
with no session key and no session ID. -/
def httpClient (address : String) : SliverHTTPClient :=
  { origin := "http://" ++ address, sessionKey := none, sessionID := [] }

/-- `httpsClient(address)` — a fresh client bound to the encrypted origin,
with no session key and no session ID. -/
def httpsClient (address : String) : SliverHTTPClient :=
  { origin := "https://" ++ address, sessionKey := none, sessionID := [] }

/-- The GET request `getPublicKey` always issues
(`fmt.Sprintf("%s/rsakey", s.Origin)`). -/
def rsakeyRequest (s : SliverHTTPClient) : HTTPRequest :=
  { method := .get, url := s.origin ++ "/rsakey", body := [] }

/-- Outcome of `getPublicKey`: a key, the nil pointer, or a runtime panic
(nil dereference of the unchecked `x509.ParseCertificate` result, or a
failed type assertion to `*rsa.PublicKey`). -/
inductive PubKeyOutcome where
  | key (k : RSAPublicKey)
  | nilKey
  | panics
  deriving DecidableEq, Repr

/-- `getPublicKey` — fetch `/rsakey`; on transport error or non-200 return
nil; PEM-decode, verify against the pinned root; on verifier success
re-parse the certificate ignoring the parse error and type-assert its key
to RSA; on verifier failure return nil. -/
def getPublicKey (env : Env) (s : SliverHTTPClient) : PubKeyOutcome × List HTTPRequest :=
  let req := rsakeyRequest s
  match env.httpDo req with
  | .error _ => (.nilKey, [req])
  | .ok resp =>
    if resp.statusCode ≠ 200 then (.nilKey, [req])
    else
      match env.pemDecode resp.body with
      | none => (.nilKey, [req])
      | some pubKeyBlock =>
        match env.rootOnlyVerify pubKeyBlock.bytes with
        | none =>
          match env.parseCertificate pubKeyBlock.bytes with
          | none => (.panics, [req])
          | some cert =>
            match cert.publicKey with
            | .rsa k => (.key k, [req])
            | .other => (.panics, [req])
        | some _ => (.nilKey, [req])

/-- Result of `SessionInit` / `getSessionID`: nil error, a non-nil error,
or a propagated runtime panic. -/
inductive SIResult where
  | ok
  | err (e : String)
  | panics
  deriving DecidableEq, Repr

/-- What `getSessionID` leaves behind: its returned error, the client
(whose `SessionID` field it may have set), and the requests it sent. -/
structure GSIDOutcome where
  result : SIResult
  client : SliverHTTPClient
  trace : List HTTPRequest
  deriving DecidableEq, Repr

/-- The POST request `getSessionID` issues to the fixed path `/start`. -/
def startRequest (s : SliverHTTPClient) (sessionInit : Bytes) : HTTPRequest :=
  { method := .post, url := s.toURL "/start", body := sessionInit }

/-- `getSessionID` — POST the RSA-encrypted session init to `/start`; on
transport error return it; otherwise read the body and GCM-decrypt it with
the session key (note: the response status code is never examined); on
decrypt success store the plaintext as the session ID. -/
def getSessionID (env : Env) (s : SliverHTTPClient) (sessionInit : Bytes) : GSIDOutcome :=
  let req : HTTPRequest := startRequest s sessionInit
  match env.httpDo req with
  | .error e => { result := .err e, client := s, trace := [req] }
  | .ok resp =>
    match s.sessionKey with
    | none => { result := .panics, client := s, trace := [req] }
    | some key =>
      match env.gcmDecrypt key resp.body with
      | .error e => { result := .err e, client := s, trace := [req] }
      | .ok sessionID =>
        { result := .ok, client := { s with sessionID := sessionID }, trace := [req] }

/-- What `SessionInit` leaves behind: its returned error, the mutated
client, the randomness counter after any key draws, and the requests
sent. -/
structure InitOutcome where
  result : SIResult
  client : SliverHTTPClient
  ctr : Nat
  trace : List HTTPRequest
  deriving DecidableEq, Repr

/-- `SessionInit` — fetch and verify the public key (nil key is the fixed
error `"error"`); generate a fresh session key and store it on the client;
marshal and RSA-encrypt the session-init message; POST it via
`getSessionID`.  `ctr` indexes the randomness supply `env.randomKeys`. -/
def SessionInit (env : Env) (ctr : Nat) (s : SliverHTTPClient) : InitOutcome :=
  match getPublicKey env s with
  | (.panics, tr) => { result := .panics, client := s, ctr := ctr, trace := tr }
  | (.nilKey, tr) => { result := .err "error", client := s, ctr := ctr, trace := tr }
  | (.key publicKey, tr) =>
    let skey := env.randomKeys ctr
    let s1 : SliverHTTPClient := { s with sessionKey := some skey }
    let data := env.marshalSessionInit skey
    match env.rsaEncrypt data publicKey with
    | .error e => { result := .err e, client := s1, ctr := ctr + 1, trace := tr }
    | .ok encryptedSessionInit =>
      let g := getSessionID env s1 encryptedSessionInit
      { result := g.result, client := g.client, ctr := ctr + 1, trace := tr ++ g.trace }

/-- Result of `HTTPStartSession`: a usable client, an error, or a
propagated panic. -/
inductive StartResult where
  | ok (client : SliverHTTPClient)
  | err (e : String)
  | panics
  deriving DecidableEq, Repr

/-- What `HTTPStartSession` leaves behind. -/
structure StartOutcome where
  result : StartResult
  ctr : Nat
  trace : List HTTPRequest
  deriving DecidableEq, Repr

/-- The first (encrypted-origin) handshake attempt of `HTTPStartSession`. -/
def firstAttempt (env : Env) (ctr : Nat) (address : String) : InitOutcome :=
  SessionInit env ctr (httpsClient address)

/-- The fallback (plaintext-origin) handshake attempt of
`HTTPStartSession`, started from a fresh keyless client and from the
randomness counter the first attempt left. -/
def secondAttempt (env : Env) (ctr : Nat) (address : String) : InitOutcome :=
  SessionInit env (firstAttempt env ctr address).ctr (httpClient address)

/-- `HTTPStartSession` — try `SessionInit` on the https client; on error,
build a fresh http client ("Fallback to insecure HTTP") and try again; on
a second error return that second error. -/
def HTTPStartSession (env : Env) (ctr : Nat) (address : String) : StartOutcome :=
  let first := firstAttempt env ctr address
  match first.result with
  | .ok => { result := .ok first.client, ctr := first.ctr, trace := first.trace }
  | .panics => { result := .panics, ctr := first.ctr, trace := first.trace }
  | .err _ =>
    let second := secondAttempt env ctr address
    match second.result with
    | .ok => { result := .ok second.client, ctr := second.ctr, trace := first.trace ++ second.trace }
    | .panics => { result := .panics, ctr := second.ctr, trace := first.trace ++ second.trace }
    | .err e => { result := .err e, ctr := second.ctr, trace := first.trace ++ second.trace }

/-- `Get` — guard `s.SessionID == "" || s.SessionKey == nil` (the two
tests are written here as nested matches, checked before anything else
exactly as in the source guard); then GET the path, fail on transport
error, fail on a non-200 status, else GCM-decrypt the body. -/
def Get (env : Env) (s : SliverHTTPClient) (urlPath : String) :
    Except String Bytes × List HTTPRequest :=
  match s.sessionKey with
  | none => (.error "no session", [])
  | some key =>
    if s.sessionID = [] then (.error "no session", [])
    else
      let req : HTTPRequest := { method := .get, url := s.toURL urlPath, body := [] }
      match env.httpDo req with
      | .error e => (.error e, [req])
      | .ok resp =>
        if resp.statusCode ≠ 200 then (.error "Non-200 response code", [req])
        else (env.gcmDecrypt key resp.body, [req])

/-- `Post` — same guard as `Get`; then `reqData, err := GCMEncrypt(...)`
whose `err` is immediately shadowed by `resp, err := s.Client.Do(req)`
without ever being checked, so on encryption failure the nil (empty) body
is sent anyway; then the same transport / status / decrypt handling as
`Get`. -/
def Post (env : Env) (s : SliverHTTPClient) (urlPath : String) (data : Bytes) :
    Except String Bytes × List HTTPRequest :=
  match s.sessionKey with
  | none => (.error "no session", [])
  | some key =>
    if s.sessionID = [] then (.error "no session", [])
    else
      let reqData :=
        match env.gcmEncrypt key data with
        | .ok d => d
        | .error _ => []
      let req : HTTPRequest := { method := .post, url := s.toURL urlPath, body := reqData }
      match env.httpDo req with
      | .error e => (.error e, [req])
      | .ok resp =>
        if resp.statusCode ≠ 200 then (.error "Non-200 response code", [req])
        else (env.gcmDecrypt key resp.body, [req])

/-! Concrete environments used to evaluate the definitions on explicit
inputs.  PEM body `[1]` decodes to DER `[3]`, which the pinned verifier
accepts and which parses to a certificate carrying the RSA key `⟨5, 7⟩`;
the randomness supply draws `[i]` at index `i`. -/

/-- An environment in which every external call fails. -/
def envAllFail : Env where
  httpDo := fun _ => .error "connection refused"
  pemDecode := fun _ => none
  parseCertificate := fun _ => none
  rootOnlyVerify := fun _ => some "untrusted"
  rsaEncrypt := fun _ _ => .error "rsa failure"
  gcmEncrypt := fun _ _ => .error "encrypt failure"
  gcmDecrypt := fun _ _ => .error "decrypt failure"
  randomKeys := fun i => [i]
  marshalSessionInit := fun k => k

/-- The https origin is unreachable; the full handshake succeeds over the
http origin of address `"a"`. -/
def envHttpsDown : Env where
  httpDo := fun req =>
    if req.url = "http://a/rsakey" then .ok { statusCode := 200, body := [1] }
    else if req.url = "http://a/start" then .ok { statusCode := 200, body := [2] }
    else .error "tls failure"
  pemDecode := fun b => if b = [1] then some { bytes := [3] } else none
  parseCertificate := fun b =>
    if b = [3] then some { publicKey := .rsa { modulus := 5, exponent := 7 } } else none
  rootOnlyVerify := fun b => if b = [3] then none else some "untrusted"
  rsaEncrypt := fun d _ => .ok d
  gcmEncrypt := fun _ d => .ok d
  gcmDecrypt := fun _ b => if b = [2] then .ok [9, 9] else .error "bad tag"
  randomKeys := fun i => [i]
  marshalSessionInit := fun k => k

/-- The https key fetch succeeds (so the first attempt draws a session
key) but the https `/start` POST dies; the handshake then succeeds over
the http origin of address `"a"`. -/
def envKeyThenFail : Env where
  httpDo := fun req =>
    if req.url = "https://a/rsakey" then .ok { statusCode := 200, body := [1] }
    else if req.url = "https://a/start" then .error "reset"
    else if req.url = "http://a/rsakey" then .ok { statusCode := 200, body := [1] }
    else if req.url = "http://a/start" then .ok { statusCode := 200, body := [2] }
    else .error "unreachable"
  pemDecode := fun b => if b = [1] then some { bytes := [3] } else none
  parseCertificate := fun b =>
    if b = [3] then some { publicKey := .rsa { modulus := 5, exponent := 7 } } else none
  rootOnlyVerify := fun b => if b = [3] then none else some "untrusted"
  rsaEncrypt := fun d _ => .ok d
  gcmEncrypt := fun _ d => .ok d
  gcmDecrypt := fun _ b => if b = [2] then .ok [9] else .error "bad tag"
  randomKeys := fun i => [i]
  marshalSessionInit := fun k => k

/-- The `/rsakey` fetch returns status 200 but a body that is not valid
PEM. -/
def envPemFail : Env where
  httpDo := fun _ => .ok { statusCode := 200, body := [4] }
  pemDecode := fun _ => none
  parseCertificate := fun _ => none
  rootOnlyVerify := fun _ => some "untrusted"
  rsaEncrypt := fun _ _ => .error "rsa failure"
  gcmEncrypt := fun _ _ => .error "encrypt failure"
  gcmDecrypt := fun _ _ => .error "decrypt failure"
  randomKeys := fun i => [i]
  marshalSessionInit := fun k => k

/-- The pinned verifier accepts DER `[3]`, but re-parsing it yields a
certificate whose key is not RSA. -/
def envNonRSAKey : Env where
  httpDo := fun _ => .ok { statusCode := 200, body := [1] }
  pemDecode := fun b => if b = [1] then some { bytes := [3] } else none
  parseCertificate := fun b => if b = [3] then some { publicKey := .other } else none
  rootOnlyVerify := fun b => if b = [3] then none else some "untrusted"
  rsaEncrypt := fun _ _ => .error "rsa failure"
  gcmEncrypt := fun _ _ => .error "encrypt failure"
  gcmDecrypt := fun _ _ => .error "decrypt failure"
  randomKeys := fun i => [i]
  marshalSessionInit := fun k => k

/-- The `/start` POST is answered with status 500 and body `[2]`, which
nevertheless GCM-decrypts under any key to `[7]`. -/
def envStatus500 : Env where
  httpDo := fun req =>
    if req.method = .post then .ok { statusCode := 500, body := [2] }
    else .ok { statusCode := 200, body := [1] }
  pemDecode := fun b => if b = [1] then some { bytes := [3] } else none
  parseCertificate := fun b =>
    if b = [3] then some { publicKey := .rsa { modulus := 5, exponent := 7 } } else none
  rootOnlyVerify := fun b => if b = [3] then none else some "untrusted"
  rsaEncrypt := fun d _ => .ok d
  gcmEncrypt := fun _ d => .ok d
  gcmDecrypt := fun _ b => if b = [2] then .ok [7] else .error "bad tag"
  randomKeys := fun i => [i]
  marshalSessionInit := fun k => k

/-- The full https handshake of address `"a"` succeeds, but the `/start`
response body `[2]` decrypts to the empty byte string, so the issued
session ID is the empty string. -/
def envEmptySid : Env where
  httpDo := fun req =>
    if req.url = "https://a/rsakey" then .ok { statusCode := 200, body := [1] }
    else if req.url = "https://a/start" then .ok { statusCode := 200, body := [2] }
    else .error "unreachable"
  pemDecode := fun b => if b = [1] then some { bytes := [3] } else none
  parseCertificate := fun b =>
    if b = [3] then some { publicKey := .rsa { modulus := 5, exponent := 7 } } else none
  rootOnlyVerify := fun b => if b = [3] then none else some "untrusted"
  rsaEncrypt := fun d _ => .ok d
  gcmEncrypt := fun _ d => .ok d
  gcmDecrypt := fun _ b => if b = [2] then .ok [] else .error "bad tag"
  randomKeys := fun i => [i]
  marshalSessionInit := fun k => k

end Transports

namespace Rpc

open Transports (Bytes)

/-- Decoded `sliverpb.PortFwdReq` (`Host`, `Port`, `SliverID`, `TunnelID`). -/
structure PortFwdReq where
  host : String
  port : Nat
  sliverID : Nat
  tunnelID : Nat
  deriving DecidableEq, Repr

/-- A connected-implant record resolved from the hive registry
(`core.Hive.Sliver`), reduced to the field the dispatch reads. -/
structure Sliver where
  id : Nat
  deriving DecidableEq, Repr

/-- A tunnel record resolved from the tunnel registry
(`core.Tunnels.Tunnel`), reduced to the field the dispatch reads. -/
structure Tunnel where
  id : Nat
  deriving DecidableEq, Repr

/-- One forwarding of a message to an implant via its message-delivery
path (`sliver.Request(msgType, timeout, data)`). -/
structure Forward where
  sliverID : Nat
  msgType : Nat
  timeout : Nat
  data : Bytes
  deriving DecidableEq, Repr

/-- Environment for `rpcPortfwd`: the two registries, the protobuf codec,
and the per-implant delivery path, none of which are defined in
`rpc-portfwd.go`.

* `hive` / `tunnels` — Modelled from the spec: `resolveImplant(id)` /
  `resolveTunnel(id)` look a handle up in the external registry and an
  absent identifier resolves to nothing (the registries never fabricate a
  handle).
* `request` — Modelled from the spec: `forward(implant, message, timeout)`
  delivers one message to the implant and returns the raw reply bytes and
  any transport/timeout error.
* `unmarshalPortFwdReq` — `proto.Unmarshal`, whose error the source
  ignores, so it is total (a zero-valued message on undecodable bytes).
* `marshalPortFwdReq` — `proto.Marshal`, whose error the source checks. -/
structure ServerEnv where
  hive : Nat → Option Sliver
  tunnels : Nat → Option Tunnel
  unmarshalPortFwdReq : Bytes → PortFwdReq
  marshalPortFwdReq : PortFwdReq → Except String Bytes
  request : Sliver → Nat → Nat → Bytes → Bytes × Option String

/-- Modelled from the spec: the dispatch-to-implant wait is "a separate
fixed default" timeout (`defaultTimeout` of the rpc package, a constant
defined outside the analysed sources). -/
def defaultTimeout : Nat := 30

/-- Modelled from the spec: the forwarded message is "tagged with a fixed
message-type identifier" (`sliverpb.MsgPortfwdReq`, a constant defined
outside the analysed sources). -/
def msgPortfwdReq : Nat := 1

/-- What `rpcPortfwd` reports through its `resp` callback: reply bytes and
error, or a runtime panic (nil dereference of an unresolved handle). -/
inductive DispatchResult where
  | reply (data : Bytes) (err : Option String)
  | panics
  deriving DecidableEq, Repr

/-- `rpcPortfwd` — decode the request; look the implant and the tunnel up
in the registries; build and marshal the scoped request, reading
`sliver.ID` and `tunnel.ID` from the resolved handles with no nil check
(an unresolved handle is a nil-pointer dereference, hence a panic); on
marshal error report it with an empty reply; else forward once via
`sliver.Request` with the fixed default timeout and report its reply and
error verbatim. -/
def rpcPortfwd (env : ServerEnv) (req : Bytes) : DispatchResult × List Forward :=
  let pfwdReq := env.unmarshalPortFwdReq req
  match env.hive pfwdReq.sliverID, env.tunnels pfwdReq.tunnelID with
  | some sliver, some tunnel =>
    match env.marshalPortFwdReq
        { host := pfwdReq.host, port := pfwdReq.port,
          sliverID := sliver.id, tunnelID := tunnel.id } with
    | .error e => (.reply [] (some e), [])
    | .ok startPortFwdReq =>
      let r := env.request sliver msgPortfwdReq defaultTimeout startPortFwdReq
      (.reply r.1 r.2,
       [{ sliverID := sliver.id, msgType := msgPortfwdReq,
          timeout := defaultTimeout, data := startPortFwdReq }])
  | _, _ => (.panics, [])

/-- A server environment whose registries are empty: every identifier is
unknown. -/
def emptyServerEnv : ServerEnv where
  hive := fun _ => none
  tunnels := fun _ => none
  unmarshalPortFwdReq := fun b => { host := "h", port := b.length, sliverID := 1, tunnelID := 2 }
  marshalPortFwdReq := fun m => .ok [m.port, m.sliverID, m.tunnelID]
  request := fun _ _ _ d => (d, none)

/-- A server environment in which implant 1 and tunnel 2 exist and the
implant echoes the forwarded payload back. -/
def echoServerEnv : ServerEnv where
  hive := fun i => if i = 1 then some { id := 1 } else none
  tunnels := fun i => if i = 2 then some { id := 2 } else none
  unmarshalPortFwdReq := fun b => { host := "h", port := b.length, sliverID := 1, tunnelID := 2 }
  marshalPortFwdReq := fun m => .ok [m.port, m.sliverID, m.tunnelID]
  request := fun _ _ _ d => (d, none)

end Rpc

/-! ## Theorems -/

namespace Transports

/-- Helper: `getSessionID` never touches the `SessionKey` field of the
client. -/
theorem getSessionID_client_sessionKey (env : Env) (s : SliverHTTPClient) (d : Bytes) :
    (getSessionID env s d).client.sessionKey = s.sessionKey := by
  simp only [getSessionID]
  cases env.httpDo (startRequest s d) with
  | error e => rfl
  | ok resp =>
    cases hk : s.sessionKey with
    | none => exact hk
    | some key => cases hd : env.gcmDecrypt key resp.body <;> simp [hd, hk]

/-- Helper: a successful `SessionInit` started at randomness counter `ctr`
leaves on the client exactly the key drawn at index `ctr` and advances the
counter by one. -/
theorem sessionInit_ok_sessionKey (env : Env) (ctr : Nat) (s : SliverHTTPClient)
    (h : (SessionInit env ctr s).result = .ok) :
    (SessionInit env ctr s).client.sessionKey = some (env.randomKeys ctr) ∧
    (SessionInit env ctr s).ctr = ctr + 1 := by
  cases hpk : getPublicKey env s with
  | mk o tr =>
    cases o with
    | panics => simp [SessionInit, hpk] at h
    | nilKey => simp [SessionInit, hpk] at h
    | key pk =>
      cases hre : env.rsaEncrypt (env.marshalSessionInit (env.randomKeys ctr)) pk with
      | error e => simp [SessionInit, hpk, hre] at h
      | ok enc =>
        have hkey := getSessionID_client_sessionKey env
          { s with sessionKey := some (env.randomKeys ctr) } enc
        simp [SessionInit, hpk, hre, hkey]

/-- C5: on a channel whose session ID or session key is unset, both `Get`
and `Post` fail immediately with the no-session error and send no HTTP
request at all. -/
theorem get_post_require_session (env : Env) (s : SliverHTTPClient)
    (urlPath : String) (data : Bytes)
    (h : s.sessionID = [] ∨ s.sessionKey = none) :
    Get env s urlPath = (.error "no session", []) ∧
    Post env s urlPath data = (.error "no session", []) := by
  rcases h with h | h
  · cases hk : s.sessionKey with
    | none => simp [Get, Post, hk]
    | some key => simp [Get, Post, hk, h]
  · simp [Get, Post, h]

/-- C5 witness: a concrete keyless channel. -/
theorem get_post_require_session_witness :
    Get envAllFail { origin := "https://a", sessionKey := none, sessionID := [] } "/poll" =
      (.error "no session", []) ∧
    Post envAllFail { origin := "https://a", sessionKey := none, sessionID := [] } "/poll" [1] =
      (.error "no session", []) :=
  get_post_require_session envAllFail
    { origin := "https://a", sessionKey := none, sessionID := [] } "/poll" [1] (Or.inl rfl)

/-- C7: every failure shape of the key fetch — transport error, non-200
status, PEM parse failure, or pin-verification failure — makes
`getPublicKey` return the nil key after the single `/rsakey` request, and
`SessionInit` then aborts with the one fixed error `"error"`, identical
across all four shapes, leaving the client and the randomness counter
untouched. -/
theorem key_fetch_failures_uniform (env : Env) (ctr : Nat) (s : SliverHTTPClient)
    (h : (∃ e, env.httpDo (rsakeyRequest s) = .error e) ∨
         (∃ resp, env.httpDo (rsakeyRequest s) = .ok resp ∧ resp.statusCode ≠ 200) ∨
         (∃ resp, env.httpDo (rsakeyRequest s) = .ok resp ∧ resp.statusCode = 200 ∧
            env.pemDecode resp.body = none) ∨
         (∃ resp blk ce, env.httpDo (rsakeyRequest s) = .ok resp ∧ resp.statusCode = 200 ∧
            env.pemDecode resp.body = some blk ∧ env.rootOnlyVerify blk.bytes = some ce)) :
    getPublicKey env s = (.nilKey, [rsakeyRequest s]) ∧
    SessionInit env ctr s =
      { result := .err "error", client := s, ctr := ctr, trace := [rsakeyRequest s] } := by
  have hpk : getPublicKey env s = (.nilKey, [rsakeyRequest s]) := by
    rcases h with ⟨e, he⟩ | ⟨resp, hr, hst⟩ | ⟨resp, hr, hst, hp⟩ |
      ⟨resp, blk, ce, hr, hst, hp, hv⟩
    · simp [getPublicKey, he]
    · simp [getPublicKey, hr, hst]
    · simp [getPublicKey, hr, hst, hp]
    · simp [getPublicKey, hr, hst, hp, hv]
  exact ⟨hpk, by simp [SessionInit, hpk]⟩

/-- C7 witness: a 200 response whose body is not valid PEM aborts the
handshake with the fixed error. -/
theorem key_fetch_failures_uniform_witness :
    getPublicKey envPemFail (httpsClient "a") =
      (.nilKey, [rsakeyRequest (httpsClient "a")]) ∧
    SessionInit envPemFail 0 (httpsClient "a") =
      { result := .err "error", client := httpsClient "a", ctr := 0,
        trace := [rsakeyRequest (httpsClient "a")] } :=
  key_fetch_failures_uniform envPemFail 0 (httpsClient "a")
    (Or.inr (Or.inr (Or.inl ⟨{ statusCode := 200, body := [4] }, rfl, rfl, rfl⟩)))

/-- C9: once the pinned verifier has accepted the certificate bytes, the
certificate is re-parsed with the parse error discarded and its key is
type-asserted to RSA unconditionally; a verified certificate that fails
the re-parse (nil dereference) or carries a non-RSA key (failed assertion)
makes `getPublicKey` panic rather than return nil or an error. -/
theorem verified_cert_parse_or_type_panics (env : Env) (s : SliverHTTPClient)
    (resp : HTTPResponse) (blk : PEMBlock)
    (hdo : env.httpDo (rsakeyRequest s) = .ok resp)
    (hst : resp.statusCode = 200)
    (hpem : env.pemDecode resp.body = some blk)
    (hver : env.rootOnlyVerify blk.bytes = none)
    (hbad : env.parseCertificate blk.bytes = none ∨
            ∃ cert, env.parseCertificate blk.bytes = some cert ∧
              ∀ k, cert.publicKey ≠ .rsa k) :
    getPublicKey env s = (.panics, [rsakeyRequest s]) := by
  rcases hbad with hb | ⟨cert, hc, hk⟩
  · simp [getPublicKey, hdo, hst, hpem, hver, hb]
  · cases hpc : cert.publicKey with
    | rsa k => exact absurd hpc (hk k)
    | other => simp [getPublicKey, hdo, hst, hpem, hver, hc, hpc]

/-- C9 witness: a pinned-verified certificate whose re-parsed key is not
RSA panics. -/
theorem verified_cert_parse_or_type_panics_witness :
    getPublicKey envNonRSAKey (httpsClient "a") =
      (.panics, [rsakeyRequest (httpsClient "a")]) :=
  verified_cert_parse_or_type_panics envNonRSAKey (httpsClient "a")
    { statusCode := 200, body := [1] } { bytes := [3] } rfl rfl rfl rfl
    (Or.inr ⟨{ publicKey := .other }, rfl,
      fun _ hcontra => CertPublicKey.noConfusion hcontra⟩)

/-- C4: `HTTPStartSession` runs the handshake on the https origin first;
if that attempt returns nil error its client is returned and no further
request is made; exactly when it returns an error, the whole handshake is
retried on the http origin of the same address, and if that fallback also
errors, the returned error is the fallback error. -/
theorem httpStartSession_fallback_order (env : Env) (ctr : Nat) (address : String) :
    ((firstAttempt env ctr address).result = .ok →
       HTTPStartSession env ctr address =
         { result := .ok (firstAttempt env ctr address).client,
           ctr := (firstAttempt env ctr address).ctr,
           trace := (firstAttempt env ctr address).trace }) ∧
    (∀ e, (firstAttempt env ctr address).result = .err e →
       (HTTPStartSession env ctr address).trace =
         (firstAttempt env ctr address).trace ++ (secondAttempt env ctr address).trace ∧
       ((secondAttempt env ctr address).result = .ok →
          (HTTPStartSession env ctr address).result =
            .ok (secondAttempt env ctr address).client) ∧
       (∀ e2, (secondAttempt env ctr address).result = .err e2 →
          (HTTPStartSession env ctr address).result = .err e2)) := by
  refine ⟨fun h => by simp [HTTPStartSession, h], fun e he => ⟨?_, ?_, ?_⟩⟩
  · cases h2 : (secondAttempt env ctr address).result <;> simp [HTTPStartSession, he, h2]
  · intro h2; simp [HTTPStartSession, he, h2]
  · intro e2 h2; simp [HTTPStartSession, he, h2]

/-- C4 witness: the https origin is unreachable, the http handshake
succeeds, and the fallback client is returned. -/
theorem httpStartSession_fallback_order_witness :
    (HTTPStartSession envHttpsDown 0 "a").result =
      .ok (secondAttempt envHttpsDown 0 "a").client :=
  (((httpStartSession_fallback_order envHttpsDown 0 "a").2 "error" rfl).2.1) rfl

/-- C6: when the first (https) attempt fails, the fallback attempt starts
from a brand-new keyless client, so it never observes the failed attempt's
key material; a client returned by the fallback carries exactly the key
drawn at the counter position the first attempt left, and whenever the
first attempt did draw a key (its counter advanced), the returned key is a
different draw of the injective randomness supply. -/
theorem session_key_fresh_across_attempts (env : Env) (ctr : Nat) (address : String)
    (hinj : Function.Injective env.randomKeys) (e : String) (c : SliverHTTPClient)
    (hfail : (firstAttempt env ctr address).result = .err e)
    (hok : (HTTPStartSession env ctr address).result = .ok c) :
    (httpClient address).sessionKey = none ∧
    c.sessionKey = some (env.randomKeys (firstAttempt env ctr address).ctr) ∧
    ((firstAttempt env ctr address).ctr = ctr + 1 →
       c.sessionKey ≠ some (env.randomKeys ctr)) := by
  have hsecond : (secondAttempt env ctr address).result = .ok ∧
      c = (secondAttempt env ctr address).client := by
    cases h2 : (secondAttempt env ctr address).result <;>
      simp_all [HTTPStartSession, h2]
  have hkey := sessionInit_ok_sessionKey env (firstAttempt env ctr address).ctr
    (httpClient address) (by simpa [secondAttempt] using hsecond.1)
  refine ⟨rfl, ?_, ?_⟩
  · rw [hsecond.2]
    simpa [secondAttempt] using hkey.1
  · intro hadv hreuse
    rw [hsecond.2] at hreuse
    have : env.randomKeys (firstAttempt env ctr address).ctr = env.randomKeys ctr := by
      have h1 : (secondAttempt env ctr address).client.sessionKey =
          some (env.randomKeys (firstAttempt env ctr address).ctr) := by
        simpa [secondAttempt] using hkey.1
      rw [h1] at hreuse
      exact Option.some.inj hreuse
    have := hinj this
    omega

/-- C6 witness: the https attempt draws key `[0]` and fails at `/start`;
the fallback starts keyless and the returned client holds the distinct
fresh draw `[1]`. -/
theorem session_key_fresh_across_attempts_witness :
    (httpClient "a").sessionKey = none ∧
    ({ origin := "http://a", sessionKey := some [1], sessionID := [9] } :
        SliverHTTPClient).sessionKey =
      some (envKeyThenFail.randomKeys (firstAttempt envKeyThenFail 0 "a").ctr) ∧
    ((firstAttempt envKeyThenFail 0 "a").ctr = 0 + 1 →
       ({ origin := "http://a", sessionKey := some [1], sessionID := [9] } :
           SliverHTTPClient).sessionKey ≠
         some (envKeyThenFail.randomKeys 0)) :=
  session_key_fresh_across_attempts envKeyThenFail 0 "a"
    (fun a b hab => by simpa [envKeyThenFail] using hab) "reset"
    { origin := "http://a", sessionKey := some [1], sessionID := [9] } rfl rfl

/-- C10: a handshake whose response decrypts to the empty byte string is
reported as a success by `SessionInit` — the session ID is set to the
empty string — yet every later `Get` and `Post` on the returned client
fails with the no-session error and sends nothing: the established check
is "session ID non-empty and key non-nil", not "handshake completed". -/
theorem empty_session_id_unusable (env : Env) (ctr : Nat) (s : SliverHTTPClient)
    (pk : RSAPublicKey) (tr : List HTTPRequest) (enc : Bytes) (resp : HTTPResponse)
    (hpk : getPublicKey env s = (.key pk, tr))
    (henc : env.rsaEncrypt (env.marshalSessionInit (env.randomKeys ctr)) pk = .ok enc)
    (hdo : env.httpDo
        (startRequest { s with sessionKey := some (env.randomKeys ctr) } enc) = .ok resp)
    (hdec : env.gcmDecrypt (env.randomKeys ctr) resp.body = .ok []) :
    (SessionInit env ctr s).result = .ok ∧
    (SessionInit env ctr s).client.sessionID = [] ∧
    (∀ urlPath, Get env (SessionInit env ctr s).client urlPath =
       (.error "no session", [])) ∧
    (∀ urlPath d, Post env (SessionInit env ctr s).client urlPath d =
       (.error "no session", [])) := by
  have hsi : SessionInit env ctr s =
      { result := .ok,
        client := { s with sessionKey := some (env.randomKeys ctr), sessionID := [] },
        ctr := ctr + 1,
        trace := tr ++ [startRequest { s with sessionKey := some (env.randomKeys ctr) } enc] } := by
    simp [SessionInit, hpk, henc, getSessionID, hdo, hdec]
  refine ⟨by simp [hsi], by simp [hsi], fun urlPath => ?_, fun urlPath d => ?_⟩
  · rw [hsi]; simp [Get]
  · rw [hsi]; simp [Post]

/-- C10 witness: a concrete full https handshake whose `/start` response
decrypts to the empty string yields a successful `SessionInit` whose
client every `Get` and `Post` rejects. -/
theorem empty_session_id_unusable_witness :
    (SessionInit envEmptySid 0 (httpsClient "a")).result = .ok ∧
    (SessionInit envEmptySid 0 (httpsClient "a")).client.sessionID = [] ∧
    (∀ urlPath, Get envEmptySid (SessionInit envEmptySid 0 (httpsClient "a")).client urlPath =
       (.error "no session", [])) ∧
    (∀ urlPath d,
       Post envEmptySid (SessionInit envEmptySid 0 (httpsClient "a")).client urlPath d =
       (.error "no session", [])) :=
  empty_session_id_unusable envEmptySid 0 (httpsClient "a")
    { modulus := 5, exponent := 7 } [rsakeyRequest (httpsClient "a")] [0]
    { statusCode := 200, body := [2] } rfl rfl rfl rfl

/-- C3 counterexample: a `/start` response with the non-success status 500
whose body nevertheless decrypts under the session key is *accepted* by
`getSessionID` — the body is decrypted and the session ID is installed —
refuting that a non-success status fails the session-request stage and
never proceeds to body decryption. -/
theorem getSessionID_ignores_status_counterexample :
    envStatus500.httpDo
        (startRequest { origin := "https://a", sessionKey := some [0], sessionID := [] } [4]) =
      .ok { statusCode := 500, body := [2] } ∧
    (getSessionID envStatus500
        { origin := "https://a", sessionKey := some [0], sessionID := [] } [4]).result = .ok ∧
    (getSessionID envStatus500
        { origin := "https://a", sessionKey := some [0], sessionID := [] } [4]).client.sessionID =
      [7] :=
  ⟨rfl, rfl, rfl⟩

/-- C3 amended: the `/start` POST of `getSessionID` fails on a transport
error, returning exactly that error with the client untouched; the
response status code is never examined — every received response,
whatever its status, proceeds to body decryption, the stage failing
exactly when decryption fails and otherwise installing the decrypted
session ID. -/
theorem getSessionID_transport_error_only (env : Env) (s : SliverHTTPClient)
    (key : AESKey) (wrapped : Bytes) (hkey : s.sessionKey = some key) :
    (∀ e, env.httpDo (startRequest s wrapped) = .error e →
       getSessionID env s wrapped =
         { result := .err e, client := s, trace := [startRequest s wrapped] }) ∧
    (∀ resp, env.httpDo (startRequest s wrapped) = .ok resp →
       (∀ e, env.gcmDecrypt key resp.body = .error e →
          getSessionID env s wrapped =
            { result := .err e, client := s, trace := [startRequest s wrapped] }) ∧
       (∀ sid, env.gcmDecrypt key resp.body = .ok sid →
          getSessionID env s wrapped =
            { result := .ok, client := { s with sessionID := sid },
              trace := [startRequest s wrapped] })) := by
  refine ⟨fun e he => by simp [getSessionID, he], fun resp hr => ⟨?_, ?_⟩⟩
  · intro e he; simp [getSessionID, hr, hkey, he]
  · intro sid hsid; simp [getSessionID, hr, hkey, hsid]

/-- C3 amended witness: the status-500 response decrypts and is installed
as the session ID. -/
theorem getSessionID_transport_error_only_witness :
    getSessionID envStatus500
        { origin := "https://a", sessionKey := some [0], sessionID := [] } [4] =
      { result := .ok,
        client := { origin := "https://a", sessionKey := some [0], sessionID := [7] },
        trace := [startRequest
          { origin := "https://a", sessionKey := some [0], sessionID := [] } [4]] } :=
  ((getSessionID_transport_error_only envStatus500
      { origin := "https://a", sessionKey := some [0], sessionID := [] } [0] [4] rfl).2
    { statusCode := 500, body := [2] } rfl).2 [7] rfl

/-- C2: on an established channel, when symmetric encryption of the
payload fails, `Post` does *not* stop — the `GCMEncrypt` error is
assigned to `err` and immediately overwritten by the `Client.Do` result
without ever being checked — so the POST is still sent, with the nil
(empty) body, and the call returns whatever the network exchange
produces. -/
theorem post_encrypt_failure_still_sends (env : Env) (s : SliverHTTPClient)
    (key : AESKey) (urlPath : String) (payload : Bytes) (e : String)
    (hkey : s.sessionKey = some key) (hsid : s.sessionID ≠ [])
    (henc : env.gcmEncrypt key payload = .error e) :
    (Post env s urlPath payload).2 =
      [{ method := .post, url := s.toURL urlPath, body := [] }] ∧
    (Post env s urlPath payload).1 =
      (match env.httpDo { method := .post, url := s.toURL urlPath, body := [] } with
       | .error e2 => .error e2
       | .ok resp =>
         if resp.statusCode ≠ 200 then .error "Non-200 response code"
         else env.gcmDecrypt key resp.body) := by
  cases hdo : env.httpDo { method := .post, url := s.toURL urlPath, body := [] } with
  | error e2 => simp [Post, hkey, hsid, henc, hdo]
  | ok resp =>
    by_cases hst : resp.statusCode = 200 <;> simp [Post, hkey, hsid, henc, hdo, hst]

/-- C2 witness: on a concrete established channel whose encryption oracle
fails, `Post` still sends one request (with empty body) and returns the
transport outcome, not the encryption error. -/
theorem post_encrypt_failure_still_sends_witness :
    (Post envAllFail { origin := "https://a", sessionKey := some [0], sessionID := [1] }
        "/p" [5]).2 =
      [{ method := .post,
         url := SliverHTTPClient.toURL
           { origin := "https://a", sessionKey := some [0], sessionID := [1] } "/p",
         body := [] }] ∧
    (Post envAllFail { origin := "https://a", sessionKey := some [0], sessionID := [1] }
        "/p" [5]).1 =
      (match envAllFail.httpDo
          { method := .post,
            url := SliverHTTPClient.toURL
              { origin := "https://a", sessionKey := some [0], sessionID := [1] } "/p",
            body := [] } with
       | .error e2 => .error e2
       | .ok resp =>
         if resp.statusCode ≠ 200 then .error "Non-200 response code"
         else envAllFail.gcmDecrypt [0] resp.body) :=
  post_encrypt_failure_still_sends envAllFail
    { origin := "https://a", sessionKey := some [0], sessionID := [1] }
    [0] "/p" [5] "encrypt failure" rfl (by simp) rfl

end Transports

namespace Rpc

/-- C1: on a dispatch request whose implant ID or tunnel ID is absent from
the corresponding registry, `rpcPortfwd` dereferences the nil handle and
panics — it forwards nothing to any implant, but it also never reports a
not-found error through `resp`. -/
theorem rpcPortfwd_unknown_handle_panics (env : ServerEnv) (req : Transports.Bytes)
    (h : env.hive (env.unmarshalPortFwdReq req).sliverID = none ∨
         env.tunnels (env.unmarshalPortFwdReq req).tunnelID = none) :
    rpcPortfwd env req = (.panics, []) := by
  rcases h with h | h <;>
    cases hs : env.hive (env.unmarshalPortFwdReq req).sliverID <;>
    cases ht : env.tunnels (env.unmarshalPortFwdReq req).tunnelID <;>
    simp_all [rpcPortfwd]

/-- C1 witness: with empty registries every request panics without any
forward. -/
theorem rpcPortfwd_unknown_handle_panics_witness :
    rpcPortfwd emptyServerEnv [0] = (.panics, []) :=
  rpcPortfwd_unknown_handle_panics emptyServerEnv [0] (Or.inl rfl)

/-- C8: when both handles resolve and the scoped request marshals,
`rpcPortfwd` forwards the re-encoded request to that implant exactly once,
tagged with the fixed message type and the fixed default timeout, and
reports the reply bytes and error of that single forward verbatim. -/
theorem rpcPortfwd_forwards_once_verbatim (env : ServerEnv) (req : Transports.Bytes)
    (sliver : Sliver) (tunnel : Tunnel) (enc : Transports.Bytes)
    (hs : env.hive (env.unmarshalPortFwdReq req).sliverID = some sliver)
    (ht : env.tunnels (env.unmarshalPortFwdReq req).tunnelID = some tunnel)
    (hm : env.marshalPortFwdReq
        { host := (env.unmarshalPortFwdReq req).host,
          port := (env.unmarshalPortFwdReq req).port,
          sliverID := sliver.id, tunnelID := tunnel.id } = .ok enc) :
    rpcPortfwd env req =
      (.reply (env.request sliver msgPortfwdReq defaultTimeout enc).1
              (env.request sliver msgPortfwdReq defaultTimeout enc).2,
       [{ sliverID := sliver.id, msgType := msgPortfwdReq,
          timeout := defaultTimeout, data := enc }]) := by
  simp [rpcPortfwd, hs, ht, hm]

/-- C8 witness: implant 1 / tunnel 2 resolve and the echoing implant's
reply comes back verbatim from the single forward. -/
theorem rpcPortfwd_forwards_once_verbatim_witness :
    rpcPortfwd echoServerEnv [9, 9, 9] =
      (.reply (echoServerEnv.request { id := 1 } msgPortfwdReq defaultTimeout [3, 1, 2]).1
              (echoServerEnv.request { id := 1 } msgPortfwdReq defaultTimeout [3, 1, 2]).2,
       [{ sliverID := 1, msgType := msgPortfwdReq,
          timeout := defaultTimeout, data := [3, 1, 2] }]) :=
  rpcPortfwd_forwards_once_verbatim echoServerEnv [9, 9, 9]
    { id := 1 } { id := 2 } [3, 1, 2] rfl rfl rfl

end Rpc
